import Mathlib

/-!
Shallow embedding of the core of the `protokol-javni-prevoz` public-transport
coordination server, for checking its natural-language specification.

Two layers are embedded, each transcribed from the C++ source:

* the framed wire message (`Message::serialize/deserialize`,
  `serializeStream/deserializeStream`, `calculateChecksum/verifyChecksum`,
  `encodeData/decodeData`, the typed accessors `getInt/getDouble/getBinary`);
* the persistence layer (`Database::*`) over an explicit database state, and
  the coordinator handlers (`CentralServer::handleSeatReservation`,
  `handleTicketPurchase`, `handleRemoveMemberFromGroup`,
  `requireGroupLeader`) over it.

Bytes are modelled as natural numbers (wire bytes are always < 256); machine
integers carry explicit `% 2 ^ w` reductions where the C++ truncates.
-/

namespace Transport

/-! ## Wire layer: bytes and big-endian fields -/

/-- A byte string on the wire (each entry is a byte value, < 256 on real wires). -/
abbrev Bytes := List Nat

/-- The four big-endian bytes of a `uint32` value (`htonl` + `memcpy`). -/
def u32Bytes (n : Nat) : Bytes :=
  let m := n % 4294967296
  [m / 16777216, m / 65536 % 256, m / 256 % 256, m % 256]

/-- The two big-endian bytes of a `uint16` value (`htons` + `memcpy`). -/
def u16Bytes (n : Nat) : Bytes :=
  let m := n % 65536
  [m / 256, m % 256]

/-- Read a `uint32` from the first four bytes of a buffer (`memcpy` + `ntohl`).
Reading past the end of the buffer never happens in the embedded code paths;
missing bytes count as zero. -/
def beU32 : Bytes → Nat
  | b0 :: b1 :: b2 :: b3 :: _ => ((b0 * 256 + b1) * 256 + b2) * 256 + b3
  | [b0, b1, b2] => ((b0 * 256 + b1) * 256 + b2) * 256
  | [b0, b1] => (b0 * 256 + b1) * 256 * 256
  | [b0] => b0 * 256 * 256 * 256
  | [] => 0

/-- Read a `uint16` from the first two bytes of a buffer (`memcpy` + `ntohs`). -/
def beU16 : Bytes → Nat
  | b0 :: b1 :: _ => b0 * 256 + b1
  | [b0] => b0 * 256
  | [] => 0

/-! ## Key order of `std::map<std::string, std::string>` -/

/-- Strict lexicographic byte-string order: the order of `std::map` keys
(`std::string::operator<`). -/
def bytesLt : Bytes → Bytes → Bool
  | [], [] => false
  | [], _ :: _ => true
  | _ :: _, [] => false
  | a :: as, b :: bs => if a < b then true else if b < a then false else bytesLt as bs

/-- `std::map` assignment `data_[key] = value`: insert keeping keys sorted,
replacing an existing binding of the same key. -/
def mapInsert : List (Bytes × Bytes) → Bytes → Bytes → List (Bytes × Bytes)
  | [], k, v => [(k, v)]
  | (k0, v0) :: rest, k, v =>
    if bytesLt k k0 then (k, v) :: (k0, v0) :: rest
    else if k = k0 then (k, v) :: rest
    else (k0, v0) :: mapInsert rest k v

/-! ## The framed message -/

/-- `Message`: the packed 24-byte header plus the key/value body
(`std::map<std::string, std::string>` held as a key-sorted association list). -/
structure Msg where
  magic : Nat
  version : Nat
  mtype : Nat
  length : Nat
  sequence_id : Nat
  session_id : Nat
  checksum : Nat
  data : List (Bytes × Bytes)
deriving DecidableEq

/-- `Message::encodeData`: each pair becomes
`u32 key_len | key | u32 val_len | val`, in map (key-sorted) order. -/
def encodeData : List (Bytes × Bytes) → Bytes
  | [] => []
  | (k, v) :: rest =>
    u32Bytes k.length ++ k ++ u32Bytes v.length ++ v ++ encodeData rest

/-- The 24 header bytes in network order (the packed `Header`, per-field
`htonl`/`htons` then `memcpy`). -/
def headerBytes (m : Msg) : Bytes :=
  u32Bytes m.magic ++ u16Bytes m.version ++ u16Bytes m.mtype ++
    u32Bytes m.length ++ u32Bytes m.sequence_id ++ u32Bytes m.session_id ++
    u32Bytes m.checksum

/-- `Message::serialize`: header bytes followed by the encoded body. -/
def Msg.serialize (m : Msg) : Bytes :=
  headerBytes m ++ encodeData m.data

/-- The body-parsing loop of `Message::decodeData`: reads
`(key_len, key, val_len, val)` tuples while at least four bytes remain, breaks
on a truncated field, and finally succeeds iff the position reached the exact
end of the buffer.  `none` models `decodeData` returning `false`.  The `fuel`
argument only drives structural recursion; every iteration consumes at least
eight bytes, so any fuel above the buffer length is enough (`decodeLoop`
below supplies it). -/
def decodeLoopF : Nat → Bytes → List (Bytes × Bytes) →
    Option (List (Bytes × Bytes))
  | 0, _, _ => none
  | fuel + 1, bytes, acc =>
    if bytes.length < 4 then
      if bytes.length = 0 then some acc else none
    else
      let keyLen := beU32 bytes
      let rest1 := bytes.drop 4
      if keyLen > rest1.length then
        if rest1.length = 0 then some acc else none
      else
        let key := rest1.take keyLen
        let rest2 := rest1.drop keyLen
        if rest2.length < 4 then
          if rest2.length = 0 then some acc else none
        else
          let valLen := beU32 rest2
          let rest3 := rest2.drop 4
          if valLen > rest3.length then
            if rest3.length = 0 then some acc else none
          else
            decodeLoopF fuel (rest3.drop valLen)
              (mapInsert acc key (rest3.take valLen))

/-- The `decodeData` loop with enough fuel for its buffer. -/
def decodeLoop (bytes : Bytes) (acc : List (Bytes × Bytes)) :
    Option (List (Bytes × Bytes)) :=
  decodeLoopF (bytes.length + 1) bytes acc

/-- `Message::decodeData` on a fresh (cleared) map. -/
def decodeData (bytes : Bytes) : Option (List (Bytes × Bytes)) :=
  decodeLoop bytes []

/-- `Message::deserialize`: needs 24 header bytes, checks only the magic
constant, then needs `size ≥ 24 + length` and decodes exactly the advertised
`length` body bytes (bytes beyond them are ignored). -/
def Msg.deserialize (b : Bytes) : Option Msg :=
  if b.length < 24 then none
  else
    let magic := beU32 b
    let version := beU16 (b.drop 4)
    let mtype := beU16 ((b.drop 4).drop 2)
    let length := beU32 (((b.drop 4).drop 2).drop 2)
    let seq := beU32 ((((b.drop 4).drop 2).drop 2).drop 4)
    let sess := beU32 (((((b.drop 4).drop 2).drop 2).drop 4).drop 4)
    let cks := beU32 ((((((b.drop 4).drop 2).drop 2).drop 4).drop 4).drop 4)
    if magic ≠ 0x54504D50 then none
    else if 24 + length ≤ b.length then
      match decodeData ((b.drop 24).take length) with
      | some d => some ⟨magic, version, mtype, length, seq, sess, cks, d⟩
      | none => none
    else none

/-- `Message::serializeStream`: a `u32` total length prefix before the frame. -/
def Msg.serializeStream (m : Msg) : Bytes :=
  u32Bytes m.serialize.length ++ m.serialize

/-- `Message::deserializeStream`: reads the length prefix, fails when fewer
bytes than advertised follow, then runs the plain `deserialize` on exactly the
advertised slice. -/
def Msg.deserializeStream (b : Bytes) : Option Msg :=
  if b.length < 4 then none
  else
    let length := beU32 b
    if b.length < 4 + length then none
    else Msg.deserialize ((b.drop 4).take length)

/-! ## CRC32 (reversed polynomial 0xEDB88320) -/

/-- One shift-xor round of `Message::calculateCRC32`. -/
def crcStep (c : Nat) : Nat :=
  if c % 2 = 1 then (c / 2) ^^^ 0xEDB88320 else c / 2

/-- `k` rounds of `crcStep` (the inner `for (i = 0; i < 8; i++)`). -/
def crcRounds : Nat → Nat → Nat
  | 0, c => c
  | k + 1, c => crcRounds k (crcStep c)

/-- Fold one byte into the running CRC (`crc ^= byte` then eight rounds). -/
def crcByte (c byte : Nat) : Nat :=
  crcRounds 8 (c ^^^ byte % 256)

/-- `Message::calculateCRC32`: init `0xFFFFFFFF`, per-byte fold, final
complement (`~crc` on a `uint32`). -/
def crc32 (b : Bytes) : Nat :=
  4294967295 ^^^ b.foldl crcByte 4294967295

/-- `Message::calculateChecksum`: zero the checksum field, CRC the full frame,
store the result in the checksum field. -/
def Msg.calculateChecksum (m : Msg) : Msg :=
  { m with checksum := crc32 (Msg.serialize { m with checksum := 0 }) }

/-- `Message::verifyChecksum`: recompute the CRC with the checksum field
zeroed and compare with the stored value (side-effect free). -/
def Msg.verifyChecksum (m : Msg) : Bool :=
  m.checksum == crc32 (Msg.serialize { m with checksum := 0 })

/-! ## Typed accessors (`getInt`, `getDouble`, `getBinary`) -/

/-- `isspace` on a byte (the whitespace `std::stoi`/`std::stod` skip). -/
def isSpaceB (c : Nat) : Bool := c == 32 || (9 ≤ c && c ≤ 13)

/-- A decimal digit byte. -/
def isDigitB (c : Nat) : Bool := 48 ≤ c && c ≤ 57

/-- `std::stoi` on a byte string: optional whitespace, optional sign, at
least one digit; `none` models a thrown `std::invalid_argument` (no digits)
or `std::out_of_range` (outside `int`). -/
def cppStoi (s : Bytes) : Option Int :=
  let s1 := s.dropWhile isSpaceB
  let signed : Bool × Bytes :=
    match s1 with
    | 45 :: r => (true, r)
    | 43 :: r => (false, r)
    | r => (false, r)
  let ds := signed.2.takeWhile isDigitB
  if ds = [] then none
  else
    let n : Nat := ds.foldl (fun a c => a * 10 + (c - 48)) 0
    let v : Int := if signed.1 then -(n : Int) else (n : Int)
    if v < -2147483648 ∨ 2147483647 < v then none else some v

/-- Whether `std::stod` accepts a byte string (decimal, leading-dot, `inf` or
`nan` forms; hexadecimal floats begin with the digit `0` and are covered by
the decimal case).  `false` models a thrown `std::invalid_argument`. -/
def cppStodParses (s : Bytes) : Bool :=
  let t0 := s.dropWhile isSpaceB
  let t : Bytes :=
    match t0 with
    | 43 :: r => r
    | 45 :: r => r
    | r => r
  match t with
  | [] => false
  | c :: r =>
    if isDigitB c then true
    else if c == 46 then
      match r with
      | d :: _ => isDigitB d
      | [] => false
    else if c == 105 || c == 73 then
      match r with
      | n :: f :: _ => (n == 110 || n == 78) && (f == 102 || f == 70)
      | _ => false
    else if c == 110 || c == 78 then
      match r with
      | a :: n2 :: _ => (a == 97 || a == 65) && (n2 == 110 || n2 == 78)
      | _ => false
    else false

/-- `std::map::find` on the message body. -/
def Msg.findVal (m : Msg) (key : Bytes) : Option Bytes :=
  (m.data.find? (fun kv => kv.1 == key)).map (fun kv => kv.2)

/-- Whether the message has the key (`Message::hasKey`). -/
def Msg.hasKeyB (m : Msg) (key : Bytes) : Bool :=
  (m.data.find? (fun kv => kv.1 == key)).isSome

/-- `Message::getInt`: missing key yields `0`; a present value goes through
`std::stoi`, whose throw is modelled as `none`. -/
def Msg.getIntOpt (m : Msg) (key : Bytes) : Option Int :=
  match m.findVal key with
  | none => some 0
  | some v => cppStoi v

/-- `Message::getDouble` does not throw: missing key yields `0.0`, a present
value must parse under `std::stod`.  `false` models the throw. -/
def Msg.getDoubleOk (m : Msg) (key : Bytes) : Bool :=
  match m.findVal key with
  | none => true
  | some v => cppStodParses v

/-- The `std::getline(ss, token, ',')` tokenizer used by `Message::getBinary`.
Each iteration consumes at least the delimiter byte, so any fuel above the
string length is enough (`getlineTokens` below supplies it). -/
def getlineTokensF : Nat → Bytes → List Bytes
  | 0, _ => []
  | _ + 1, [] => []
  | fuel + 1, c :: cs =>
    let tok := (c :: cs).takeWhile (fun x => x ≠ 44)
    match (c :: cs).dropWhile (fun x => x ≠ 44) with
    | [] => [tok]
    | _ :: r => tok :: getlineTokensF fuel r

/-- The tokenizer with enough fuel for its string. -/
def getlineTokens (s : Bytes) : List Bytes :=
  getlineTokensF (s.length + 1) s

/-- `Message::getBinary`: missing key yields the empty vector; every nonempty
comma token goes through `std::stoi` (throw modelled as `none`) and is cast
to `uint8_t` (reduction mod 256). -/
def Msg.getBinaryOpt (m : Msg) (key : Bytes) : Option (List Nat) :=
  match m.findVal key with
  | none => some []
  | some v =>
    (getlineTokens v).foldlM
      (fun acc tok =>
        if tok = [] then some acc
        else
          match cppStoi tok with
          | none => none
          | some n => some (acc ++ [(Int.emod n 256).toNat]))
      []

/-! ## Well-formed messages

A message reachable through the `Message` API: magic and version as set by
the constructor, the length field maintained by `addString`/`addInt`/… to be
the encoded body size, `std::map` key order, and every field within its
machine-integer range. -/

/-- Well-formedness of an in-memory message. -/
def Msg.wf (m : Msg) : Prop :=
  m.magic = 0x54504D50 ∧ m.version < 65536 ∧ m.mtype < 65536 ∧
    m.sequence_id < 4294967296 ∧ m.session_id < 4294967296 ∧
    m.checksum < 4294967296 ∧
    m.length = (encodeData m.data).length ∧
    24 + (encodeData m.data).length < 4294967296 ∧
    List.Pairwise (fun a b => bytesLt a.1 b.1 = true) m.data ∧
    ∀ kv ∈ m.data, kv.1.length < 4294967296 ∧ kv.2.length < 4294967296

instance (m : Msg) : Decidable m.wf := by
  unfold Msg.wf
  infer_instance

/-! ## Wire-layer lemmas -/

theorem length_u32Bytes (n : Nat) : (u32Bytes n).length = 4 := rfl

theorem length_u16Bytes (n : Nat) : (u16Bytes n).length = 2 := rfl

theorem beU32_u32Bytes (n : Nat) (r : Bytes) (h : n < 4294967296) :
    beU32 (u32Bytes n ++ r) = n := by
  simp only [u32Bytes, List.cons_append, List.nil_append, beU32]
  omega

theorem beU16_u16Bytes (n : Nat) (r : Bytes) (h : n < 65536) :
    beU16 (u16Bytes n ++ r) = n := by
  simp only [u16Bytes, List.cons_append, List.nil_append, beU16]
  omega

theorem drop4_u32Bytes (n : Nat) (r : Bytes) : (u32Bytes n ++ r).drop 4 = r := by
  simp [u32Bytes]

theorem drop2_u16Bytes (n : Nat) (r : Bytes) : (u16Bytes n ++ r).drop 2 = r := by
  simp [u16Bytes]

theorem take_exact {α : Type} (l r : List α) : (l ++ r).take l.length = l := by
  rw [List.take_append_of_le_length (Nat.le_refl _), List.take_length]

theorem drop_exact {α : Type} (l r : List α) : (l ++ r).drop l.length = r := by
  rw [List.drop_append_of_le_length (Nat.le_refl _), List.drop_length,
    List.nil_append]

theorem bytesLt_irrefl (a : Bytes) : bytesLt a a = false := by
  induction a with
  | nil => rfl
  | cons x xs ih => simp [bytesLt, ih]

theorem bytesLt_asymm (a b : Bytes) (h : bytesLt a b = true) :
    bytesLt b a = false := by
  induction a generalizing b with
  | nil =>
    cases b with
    | nil => simp [bytesLt] at h
    | cons y ys => rfl
  | cons x xs ih =>
    cases b with
    | nil => simp [bytesLt] at h
    | cons y ys =>
      simp only [bytesLt] at h ⊢
      by_cases hxy : x < y
      · simp only [hxy, if_true] at h
        have : ¬ y < x := by omega
        simp [this, hxy, Nat.ne_of_lt hxy]
      · simp only [hxy, if_false] at h
        by_cases hyx : y < x
        · simp only [hyx, if_true] at h
          exact absurd h (by simp)
        · simp only [hyx, if_false] at h
          have : ¬ x < y := hxy
          simp [hxy, hyx, ih ys h]

theorem bytesLt_ne (a b : Bytes) (h : bytesLt a b = true) : a ≠ b := by
  intro he
  subst he
  rw [bytesLt_irrefl] at h
  exact absurd h (by simp)

theorem mapInsert_append (acc : List (Bytes × Bytes)) (k v : Bytes)
    (h : ∀ kv ∈ acc, bytesLt kv.1 k = true) :
    mapInsert acc k v = acc ++ [(k, v)] := by
  induction acc with
  | nil => rfl
  | cons kv0 rest ih =>
    obtain ⟨k0, v0⟩ := kv0
    have h0 : bytesLt k0 k = true := h (k0, v0) (List.mem_cons_self _ _)
    have hlt : bytesLt k k0 = false := bytesLt_asymm _ _ h0
    have hne : k ≠ k0 := fun he => bytesLt_ne k0 k h0 he.symm
    simp only [mapInsert, hlt, Bool.false_eq_true, if_false, hne, if_false,
      List.cons_append, List.cons.injEq, true_and]
    exact ih fun kv hm => h kv (List.mem_cons_of_mem _ hm)

theorem foldl_mapInsert (d acc : List (Bytes × Bytes))
    (hp : List.Pairwise (fun a b => bytesLt a.1 b.1 = true) (acc ++ d)) :
    d.foldl (fun a kv => mapInsert a kv.1 kv.2) acc = acc ++ d := by
  induction d generalizing acc with
  | nil => simp
  | cons kv rest ih =>
    obtain ⟨k, v⟩ := kv
    have hacc : ∀ a ∈ acc, bytesLt a.1 k = true := by
      intro a ha
      exact ((List.pairwise_append.mp hp).2.2 a ha (k, v)
        (List.mem_cons_self _ _))
    have hstep : mapInsert acc k v = acc ++ [(k, v)] :=
      mapInsert_append acc k v hacc
    have hassoc : (acc ++ [(k, v)]) ++ rest = acc ++ ((k, v) :: rest) := by
      simp
    simp only [List.foldl_cons, hstep]
    rw [ih (acc ++ [(k, v)]) (by rw [hassoc]; exact hp), hassoc]

theorem decodeLoopF_encodeData (d : List (Bytes × Bytes))
    (h : ∀ kv ∈ d, kv.1.length < 4294967296 ∧ kv.2.length < 4294967296) :
    ∀ fuel acc, (encodeData d).length < fuel →
      decodeLoopF fuel (encodeData d) acc =
        some (d.foldl (fun a kv => mapInsert a kv.1 kv.2) acc) := by
  induction d with
  | nil =>
    intro fuel acc hf
    match fuel, hf with
    | fuel + 1, _ =>
      rw [encodeData, decodeLoopF]
      simp
  | cons kv rest ih =>
    intro fuel acc hf
    obtain ⟨k, v⟩ := kv
    have hk : k.length < 4294967296 := (h (k, v) (List.mem_cons_self _ _)).1
    have hv : v.length < 4294967296 := (h (k, v) (List.mem_cons_self _ _)).2
    have hrest : ∀ kv ∈ rest, kv.1.length < 4294967296 ∧
        kv.2.length < 4294967296 := fun kv hm => h kv (List.mem_cons_of_mem _ hm)
    have hlen : (encodeData ((k, v) :: rest)).length =
        4 + (k.length + (4 + (v.length + (encodeData rest).length))) := by
      rw [encodeData]
      simp [length_u32Bytes]
    match fuel, hf with
    | fuel + 1, hf =>
      rw [encodeData, decodeLoopF]
      simp only [List.append_assoc, beU32_u32Bytes _ _ hk,
        beU32_u32Bytes _ _ hv, drop4_u32Bytes, take_exact, drop_exact,
        List.length_append, length_u32Bytes]
      have hfuel : (encodeData rest).length < fuel := by
        rw [hlen] at hf
        omega
      repeat' split
      all_goals try omega
      rw [ih hrest fuel _ hfuel]
      simp

theorem decodeLoop_encodeData (d : List (Bytes × Bytes))
    (h : ∀ kv ∈ d, kv.1.length < 4294967296 ∧ kv.2.length < 4294967296) :
    ∀ acc, decodeLoop (encodeData d) acc =
      some (d.foldl (fun a kv => mapInsert a kv.1 kv.2) acc) := by
  intro acc
  rw [decodeLoop]
  exact decodeLoopF_encodeData d h _ acc (Nat.lt_succ_self _)

theorem decodeData_encodeData (d : List (Bytes × Bytes))
    (h : ∀ kv ∈ d, kv.1.length < 4294967296 ∧ kv.2.length < 4294967296)
    (hp : List.Pairwise (fun a b => bytesLt a.1 b.1 = true) d) :
    decodeData (encodeData d) = some d := by
  rw [decodeData, decodeLoop_encodeData d h []]
  rw [foldl_mapInsert d [] (by simpa using hp)]
  simp

theorem length_headerBytes (m : Msg) : (headerBytes m).length = 24 := by
  simp [headerBytes, length_u32Bytes, length_u16Bytes]

theorem length_serialize (m : Msg) :
    m.serialize.length = 24 + (encodeData m.data).length := by
  simp [Msg.serialize, length_headerBytes]

theorem drop24_parts (x y z w p q t : Nat) (r : Bytes) :
    (u32Bytes x ++ (u16Bytes y ++ (u16Bytes z ++ (u32Bytes w ++
      (u32Bytes p ++ (u32Bytes q ++ (u32Bytes t ++ r))))))).drop 24 = r := rfl

theorem deserialize_serialize (m : Msg) (h : m.wf) :
    Msg.deserialize m.serialize = some m := by
  obtain ⟨mg, vr, ty, ln, sq, ss, ck, dt⟩ := m
  obtain ⟨h1, h2, h3, h4, h5, h6, h7, h8, h9, h10⟩ := h
  simp only at h1 h2 h3 h4 h5 h6 h7 h8 h9 h10
  subst h1
  subst h7
  have hln : (encodeData dt).length < 4294967296 := by omega
  have hC : (1414548816 : Nat) < 4294967296 := by norm_num
  rw [Msg.deserialize]
  simp only [Msg.serialize, headerBytes, List.append_assoc,
    beU32_u32Bytes _ _ hC, beU32_u32Bytes _ _ hln, beU32_u32Bytes _ _ h4,
    beU32_u32Bytes _ _ h5, beU32_u32Bytes _ _ h6, beU16_u16Bytes _ _ h2,
    beU16_u16Bytes _ _ h3, drop4_u32Bytes, drop2_u16Bytes, drop24_parts,
    List.length_append, length_u32Bytes, length_u16Bytes, List.take_length,
    decodeData_encodeData dt h10 h9]
  repeat' split
  all_goals try omega
  all_goals simp_all

theorem deserializeStream_serializeStream (m : Msg) (h : m.wf) :
    Msg.deserializeStream m.serializeStream = some m := by
  have h8 : 24 + (encodeData m.data).length < 4294967296 := h.2.2.2.2.2.2.2.1
  have hsl : m.serialize.length = 24 + (encodeData m.data).length :=
    length_serialize m
  have hslt : m.serialize.length < 4294967296 := by omega
  rw [Msg.deserializeStream, Msg.serializeStream]
  simp only [beU32_u32Bytes _ _ hslt, drop4_u32Bytes, List.length_append,
    length_u32Bytes, List.take_length]
  repeat' split
  all_goals try omega
  exact deserialize_serialize m h

theorem verifyChecksum_calculateChecksum (m : Msg) :
    (m.calculateChecksum).verifyChecksum = true := by
  obtain ⟨mg, vr, ty, ln, sq, ss, ck, dt⟩ := m
  simp [Msg.calculateChecksum, Msg.verifyChecksum]

theorem crcStep_lt (c : Nat) (h : c < 4294967296) : crcStep c < 4294967296 := by
  rw [crcStep]
  have h2 : c / 2 < 4294967296 := by omega
  split
  · have : (4294967296 : Nat) = 2 ^ 32 := by norm_num
    rw [this] at h2 ⊢
    exact Nat.xor_lt_two_pow h2 (by norm_num)
  · exact h2

theorem crcRounds_lt (k c : Nat) (h : c < 4294967296) :
    crcRounds k c < 4294967296 := by
  induction k generalizing c with
  | zero => exact h
  | succ k ih => exact ih _ (crcStep_lt c h)

theorem crc32_lt (b : Bytes) : crc32 b < 4294967296 := by
  rw [crc32]
  have hf : ∀ (l : Bytes) (c : Nat), c < 4294967296 →
      l.foldl crcByte c < 4294967296 := by
    intro l
    induction l with
    | nil => intro c hc; exact hc
    | cons x xs ih =>
      intro c hc
      rw [List.foldl_cons]
      apply ih
      rw [crcByte]
      apply crcRounds_lt
      have h2 : (4294967296 : Nat) = 2 ^ 32 := by norm_num
      rw [h2] at hc ⊢
      exact Nat.xor_lt_two_pow hc (by
        have : x % 256 < 256 := Nat.mod_lt _ (by norm_num)
        omega)
  have h2 : (4294967296 : Nat) = 2 ^ 32 := by norm_num
  rw [h2]
  exact Nat.xor_lt_two_pow (by norm_num) (by
    rw [← h2]
    exact hf b 4294967295 (by norm_num))

theorem wf_calculateChecksum (m : Msg) (h : m.wf) : (m.calculateChecksum).wf := by
  obtain ⟨mg, vr, ty, ln, sq, ss, ck, dt⟩ := m
  obtain ⟨h1, h2, h3, h4, h5, h6, h7, h8, h9, h10⟩ := h
  refine ⟨h1, h2, h3, h4, h5, ?_, h7, h8, h9, h10⟩
  exact crc32_lt _

/-- A small concrete well-formed message (key `"c"`, value `"12"`). -/
def wmsg : Msg := ⟨1414548816, 1, 1, 11, 7, 9, 0, [([99], [49, 50])]⟩

/-- C3: for every well-formed message `m`, `deserialize (serialize m)`
reconstructs `m` (same header type and key/value payload),
`deserializeStream (serializeStream m)` reconstructs `m`, and after
`calculateChecksum` was last called, `verifyChecksum` of the message — and of
its (de)serialized copy — returns `true`. -/
theorem C3_roundtrip (m : Msg) (h : m.wf) :
    Msg.deserialize m.serialize = some m ∧
    Msg.deserializeStream m.serializeStream = some m ∧
    (m.calculateChecksum).verifyChecksum = true ∧
    Msg.deserialize (m.calculateChecksum).serialize =
      some m.calculateChecksum ∧
    ∀ m2, Msg.deserialize (m.calculateChecksum).serialize = some m2 →
      m2.verifyChecksum = true := by
  refine ⟨deserialize_serialize m h, deserializeStream_serializeStream m h,
    verifyChecksum_calculateChecksum m,
    deserialize_serialize _ (wf_calculateChecksum m h), ?_⟩
  intro m2 hm2
  rw [deserialize_serialize _ (wf_calculateChecksum m h)] at hm2
  injection hm2 with he
  subst he
  exact verifyChecksum_calculateChecksum m

/-- Witness for C3 at a concrete message. -/
theorem C3_roundtrip_witness :
    Msg.wf wmsg ∧ Msg.deserialize wmsg.serialize = some wmsg ∧
      (wmsg.calculateChecksum).verifyChecksum = true := by
  have h : Msg.wf wmsg := by decide
  exact ⟨h, (C3_roundtrip wmsg h).1, (C3_roundtrip wmsg h).2.2.1⟩

/-- The decode-success condition as the spec words it (§4.A *decode*): at
least header size, magic AND version match the expected constants, the
advertised body length fits the remaining bytes, and — because trailing bytes
beyond `header + body_length` are declared a decode error — nothing follows
the body.  Stated from the spec for comparison with `Msg.deserialize`. -/
def specDecodeOk (b : Bytes) : Bool :=
  decide (24 ≤ b.length) && (beU32 b == 1414548816) &&
    (beU16 (b.drop 4) == 1) &&
    (24 + beU32 (((b.drop 4).drop 2).drop 2) == b.length)

/-- C4 counterexample: a frame with version field `7` and one trailing byte
beyond `header + body_length` still deserializes successfully, though the
spec's decode condition rejects it. -/
theorem C4_counterexample :
    (Msg.deserialize
        (Msg.serialize ⟨1414548816, 7, 1, 0, 0, 0, 0, []⟩ ++ [0])).isSome
      = true ∧
    specDecodeOk
        (Msg.serialize ⟨1414548816, 7, 1, 0, 0, 0, 0, []⟩ ++ [0]) = false := by
  decide

/-- C4 as the code has it: `deserialize b` succeeds iff `b` is at least the
24 header bytes, the magic field matches `0x54504D50` (the version field is
not checked), the advertised body length does not exceed the bytes remaining
after the header, and the advertised body slice parses to a tuple boundary;
trailing bytes beyond `header + body_length` are ignored, not an error. -/
theorem C4_deserialize_success (b : Bytes) :
    (Msg.deserialize b).isSome = true ↔
      24 ≤ b.length ∧ beU32 b = 1414548816 ∧
        24 + beU32 (((b.drop 4).drop 2).drop 2) ≤ b.length ∧
        (decodeData ((b.drop 24).take
          (beU32 (((b.drop 4).drop 2).drop 2)))).isSome = true := by
  simp only [Msg.deserialize]
  repeat' split
  all_goals simp_all

/-- The non-numeric message of C10: key `"x"`, value `"abc"`. -/
def nonNumericMsg : Msg := ⟨1414548816, 1, 1, 12, 0, 0, 0, [([120], [97, 98, 99])]⟩

/-- C10: the typed accessors are not total on present keys.  A missing key
yields the zero value (`0`, parse-success, empty vector), but for a message
whose stored value is the non-numeric text `"abc"` — obtained from a
well-formed decoded wire message — `getInt`, `getDouble` and `getBinary`
throw (`std::stoi`/`std::stod` raise `std::invalid_argument`, modelled as
`none`/`false`). -/
theorem C10_accessors_partial :
    (∀ (m : Msg) (k : Bytes), m.findVal k = none →
      m.getIntOpt k = some 0 ∧ m.getDoubleOk k = true ∧
        m.getBinaryOpt k = some []) ∧
    (Msg.deserialize (Msg.serialize nonNumericMsg) = some nonNumericMsg ∧
      nonNumericMsg.hasKeyB [120] = true ∧
      nonNumericMsg.getIntOpt [120] = none ∧
      nonNumericMsg.getDoubleOk [120] = false ∧
      nonNumericMsg.getBinaryOpt [120] = none) := by
  constructor
  · intro m k hk
    simp [Msg.getIntOpt, Msg.getDoubleOk, Msg.getBinaryOpt, hk]
  · refine ⟨?_, by decide, by decide, by decide, by decide⟩
    exact deserialize_serialize _ (by decide)

/-! ## Persistence layer (`Database` over sqlite)

Rows of the sqlite tables as explicit records, the database file as a record
of row lists (in insertion order), and the `Database::*` member functions as
state transformers.  `PRAGMA foreign_keys = ON` is in force, so inserts
honour the schema's foreign keys; a primary-key or foreign-key violation is
the `SQLITE_CONSTRAINT` failure path (`none`). -/

/-- A row of `users`. -/
structure User where
  urn : String
  name : String
  age : Int
  registration_date : String
  active : Bool
  pin_hash : String
deriving DecidableEq

/-- A row of `vehicles`.  `vtype` is the integer stored in the `type` column
(Bus = 1, Tram = 2, Trolleybus = 3; other values can be stored by the cast
from `getInt`). -/
structure Vehicle where
  uri : String
  vtype : Int
  capacity : Int
  available_seats : Int
  route : String
  active : Bool
  last_update : String
deriving DecidableEq

/-- A row of `groups`. -/
structure Group where
  group_id : Int
  group_name : String
  leader_urn : String
  creation_date : String
  active : Bool
deriving DecidableEq

/-- A row of `group_members`. -/
structure GroupMember where
  group_id : Int
  member_urn : String
  join_date : String
  active : Bool
deriving DecidableEq

/-- A row of `tickets`.  `ttype` is the `type` column (Individual = 1,
Family = 2, Business = 3, Tourist = 4). -/
structure Ticket where
  ticket_id : String
  user_urn : String
  ttype : Int
  vtype : Int
  route : String
  price : ℚ
  discount : ℚ
  purchase_date : String
  seat_number : String
  used : Bool
deriving DecidableEq

/-- A row of `payments` (`ticket_id = ""` models the NULL binding). -/
structure Payment where
  transaction_id : String
  ticket_id : String
  amount : ℚ
  payment_method : String
  payment_date : String
  successful : Bool
deriving DecidableEq

/-- The database file: each table as its rows in insertion order, plus the
`AUTOINCREMENT` counter of `groups`. -/
structure DBState where
  users : List User
  groups : List Group
  group_members : List GroupMember
  vehicles : List Vehicle
  tickets : List Ticket
  payments : List Payment
  next_group_id : Int
deriving DecidableEq

/-- `Database::getVehicle`: `SELECT … FROM vehicles WHERE uri = ? LIMIT 1`. -/
def getVehicle (st : DBState) (uri : String) : Option Vehicle :=
  st.vehicles.find? (fun v => v.uri == uri)

/-- `Database::getVehicleByRouteAndType`:
`SELECT … WHERE route = ? AND type = ? LIMIT 1`. -/
def getVehicleByRouteAndType (st : DBState) (route : String) (t : Int) :
    Option Vehicle :=
  st.vehicles.find? (fun v => v.route == route && v.vtype == t)

/-- `Database::updateSeatAvailability`:
`UPDATE vehicles SET available_seats = ? WHERE uri = ?` (always reports
success; a zero-row update is not an error). -/
def updateSeatAvailability (st : DBState) (uri : String) (n : Int) : DBState :=
  { st with vehicles := st.vehicles.map (fun v =>
      if v.uri == uri then { v with available_seats := n } else v) }

/-- `Database::userExists`: `SELECT 1 FROM users WHERE urn = ? LIMIT 1`. -/
def userExists (st : DBState) (urn : String) : Bool :=
  st.users.any (fun u => u.urn == urn)

/-- `Database::createTicket`: `INSERT INTO tickets …`; fails on a duplicate
`ticket_id` (primary key) or an unknown `user_urn` (foreign key). -/
def createTicket (st : DBState) (t : Ticket) : Option DBState :=
  if st.tickets.any (fun t0 => t0.ticket_id == t.ticket_id) then none
  else if ¬ userExists st t.user_urn then none
  else some { st with tickets := st.tickets ++ [t] }

/-- `Database::recordPayment`: `INSERT INTO payments …`; fails on a duplicate
`transaction_id` or, when a ticket id is bound (non-NULL), on an unknown
`ticket_id`. -/
def recordPayment (st : DBState) (p : Payment) : Option DBState :=
  if st.payments.any (fun p0 => p0.transaction_id == p.transaction_id) then none
  else if p.ticket_id ≠ "" ∧
      ¬ st.tickets.any (fun t => t.ticket_id == p.ticket_id) then none
  else some { st with payments := st.payments ++ [p] }

/-- `Database::calculateTicketPrice`: the placeholder returns the base price
`1.0` regardless of its arguments. -/
def calculateTicketPrice (_vehicle_type _ticket_type : Int) (_passengers : Int)
    (_distance _time_minutes : ℚ) : ℚ :=
  1

/-- `Database::calculateDiscount`: 10% for the Family package (ticket type 2)
or for three or more tickets, otherwise 0%. -/
def calculateDiscount (_urn : String) (ticket_type : Int) (group_size : Int) :
    ℚ :=
  if ticket_type == 2 then 1 / 10
  else if group_size ≥ 3 then 1 / 10
  else 0

/-- `Database::getGroupIdByName`:
`SELECT group_id FROM groups WHERE group_name = ? AND active = 1 LIMIT 1`,
`-1` when absent. -/
def getGroupIdByName (st : DBState) (group_name : String) : Int :=
  match st.groups.find? (fun g => g.group_name == group_name && g.active) with
  | some g => g.group_id
  | none => -1

/-- `Database::getGroupLeader`:
`SELECT leader_urn FROM groups WHERE group_name = ? AND active = 1 LIMIT 1`,
`""` when absent. -/
def getGroupLeader (st : DBState) (group_name : String) : String :=
  match st.groups.find? (fun g => g.group_name == group_name && g.active) with
  | some g => g.leader_urn
  | none => ""

/-- `Database::createGroup`: insert the group row (unique `group_name`,
foreign-key `leader_urn`), re-read its `group_id` by name, then
`INSERT OR REPLACE` the leader as an active member.  `now` stands for
`nowISO()`. -/
def createGroup (st : DBState) (g : Group) (now : String) : Option DBState :=
  if st.groups.any (fun g0 => g0.group_name == g.group_name) then none
  else if ¬ userExists st g.leader_urn then none
  else
    let creation := if g.creation_date = "" then now else g.creation_date
    let st1 : DBState :=
      { st with
          groups := st.groups ++
            [{ g with group_id := st.next_group_id,
                      creation_date := creation }],
          next_group_id := st.next_group_id + 1 }
    match st1.groups.find? (fun g0 => g0.group_name == g.group_name) with
    | none => none
    | some g2 =>
      if g2.group_id < 0 then none
      else
        some { st1 with
          group_members :=
            (st1.group_members.filter (fun m =>
              ¬ (m.group_id == g2.group_id && m.member_urn == g.leader_urn)))
              ++ [⟨g2.group_id, g.leader_urn, now, true⟩] }

/-- `Database::addUserToGroup`: the member must exist, the group must exist
(active); an active membership row is a failure, an inactive one is
reactivated with a fresh join date, otherwise a new active row is inserted. -/
def addUserToGroup (st : DBState) (urn group_name now : String) :
    Option DBState :=
  if ¬ userExists st urn then none
  else
    let gid := getGroupIdByName st group_name
    if gid ≤ 0 then none
    else
      match st.group_members.find?
          (fun m => m.group_id == gid && m.member_urn == urn) with
      | some m =>
        if m.active then none
        else
          some { st with group_members := st.group_members.map (fun m0 =>
            if m0.group_id == gid && m0.member_urn == urn then
              { m0 with active := true, join_date := now }
            else m0) }
      | none =>
        some { st with group_members :=
          st.group_members ++ [⟨gid, urn, now, true⟩] }

/-- `Database::removeUserFromGroup`: the group must exist (active); the
membership row is deleted, and zero affected rows is the
"User not in group" failure. -/
def removeUserFromGroup (st : DBState) (urn group_name : String) :
    Option DBState :=
  let gid := getGroupIdByName st group_name
  if gid ≤ 0 then none
  else
    let rest := st.group_members.filter
      (fun m => ¬ (m.group_id == gid && m.member_urn == urn))
    if rest.length = st.group_members.length then none
    else some { st with group_members := rest }

/-- The §3 group invariant as the spec words it: for every group, the leader
URN appears as an active member of that group. -/
def leaderActiveMember (st : DBState) : Prop :=
  ∀ g ∈ st.groups, ∃ m ∈ st.group_members,
    m.group_id = g.group_id ∧ m.member_urn = g.leader_urn ∧ m.active = true

instance (st : DBState) : Decidable (leaderActiveMember st) := by
  unfold leaderActiveMember
  infer_instance

/-- Structural well-formedness the sqlite schema guarantees: group ids are
below the `AUTOINCREMENT` counter and pairwise distinct, and membership rows
reference existing groups (their foreign key, with `ON DELETE CASCADE`). -/
def DBState.wfIds (st : DBState) : Prop :=
  (∀ g ∈ st.groups, g.group_id < st.next_group_id) ∧
  List.Pairwise (fun a b => a.group_id ≠ b.group_id) st.groups ∧
  (∀ m ∈ st.group_members, ∃ g ∈ st.groups, g.group_id = m.group_id)

instance (st : DBState) : Decidable st.wfIds := by
  unfold DBState.wfIds
  infer_instance

/-! ## Coordinator handlers (`CentralServer`)

Each handler is a state transformer over `DBState` (plus the session table
where the handler consults it) that returns the response sent to the client,
the multicast events emitted, and the trace of `Database` calls it made — the
trace records, in particular, whether `beginTransaction`, `commitTransaction`
or `rollbackTransaction` was ever issued. -/

/-- A `Database` call made by a handler. -/
inductive DBOp where
  | beginTxn
  | commitTxn
  | rollbackTxn
  | opGetVehicle (uri : String)
  | opGetVehicleByRouteAndType (route : String) (vtype : Int)
  | opUpdateSeatAvailability (uri : String) (n : Int)
  | opCreateTicket (ticket_id : String)
  | opRecordPayment (transaction_id : String)
deriving DecidableEq

/-- Whether a database call is one of the transaction brackets
(`beginTransaction`, `commitTransaction`, `rollbackTransaction`). -/
def DBOp.isTxn : DBOp → Bool
  | beginTxn => true
  | commitTxn => true
  | rollbackTxn => true
  | _ => false

/-- A multicast update event (`sendMulticastUpdate`). -/
inductive MEvent where
  | seatReserved (route vehicle_uri : String) (available_seats : Int)
  | ticketPurchased (route vehicle_uri : String) (passengers : Int)
      (available_seats : Int)
deriving DecidableEq

/-- The response of the seat-reservation handler (`sendErrorResponse` carries
the message and the code, whose default argument is `-1`). -/
inductive ReserveResp where
  | err (msg : String) (code : Int)
  | ok (route vehicle_uri : String) (available_seats : Int)
deriving DecidableEq

/-- Result of `handleSeatReservation`. -/
structure ReserveOutcome where
  db : DBState
  resp : ReserveResp
  ops : List DBOp
  events : List MEvent
deriving DecidableEq

/-- The fields `handleSeatReservation` reads from the request message
(`getInt`/`getString`; a missing string key reads as `""`). -/
structure ReserveRequest where
  vehicle_type : Int
  route : String
  uri : String
  urn : String
deriving DecidableEq

/-- The fallback loop of the handlers: scan the kinds in the given order,
skipping the requested kind, and adopt the first match. -/
def fallbackScan (st : DBState) (route : String) (skip : Int) :
    List Int → Option (Vehicle × Int) × List DBOp
  | [] => (none, [])
  | t :: ts =>
    if t == skip then fallbackScan st route skip ts
    else
      match getVehicleByRouteAndType st route t with
      | some v => (some (v, t), [DBOp.opGetVehicleByRouteAndType route t])
      | none =>
        let r := fallbackScan st route skip ts
        (r.1, DBOp.opGetVehicleByRouteAndType route t :: r.2)

/-- Vehicle resolution of `handleSeatReservation`: by URI first (adopting the
vehicle's kind and route), else by route and requested kind, else the
fallback scan over Bus, Tram, Trolleybus.  Returns the resolved vehicle, the
adopted kind, the possibly-updated route, and the lookup trace. -/
def reserveResolve (st : DBState) (uri route : String) (vt : Int) :
    Option (Vehicle × Int × String) × List DBOp :=
  if uri ≠ "" then
    match getVehicle st uri with
    | some v => (some (v, v.vtype, v.route), [DBOp.opGetVehicle uri])
    | none =>
      if route ≠ "" then
        match getVehicleByRouteAndType st route vt with
        | some v => (some (v, vt, route),
            [DBOp.opGetVehicle uri, DBOp.opGetVehicleByRouteAndType route vt])
        | none =>
          let s := fallbackScan st route vt [1, 2, 3]
          (s.1.map (fun p => (p.1, p.2, route)),
            DBOp.opGetVehicle uri ::
              DBOp.opGetVehicleByRouteAndType route vt :: s.2)
      else (none, [DBOp.opGetVehicle uri])
  else
    if route ≠ "" then
      match getVehicleByRouteAndType st route vt with
      | some v => (some (v, vt, route),
          [DBOp.opGetVehicleByRouteAndType route vt])
      | none =>
        let s := fallbackScan st route vt [1, 2, 3]
        (s.1.map (fun p => (p.1, p.2, route)),
          DBOp.opGetVehicleByRouteAndType route vt :: s.2)
    else (none, [])

/-- `CentralServer::handleSeatReservation`. -/
def handleSeatReservation (st : DBState) (req : ReserveRequest) :
    ReserveOutcome :=
  if req.urn = "" then ⟨st, .err "Missing user URN" (-1), [], []⟩
  else
    let r := reserveResolve st req.uri req.route req.vehicle_type
    match r.1 with
    | none => ⟨st, .err "Vehicle/route not found" (-1), r.2, []⟩
    | some (v, _vt2, route0) =>
      let route := if route0 = "" then v.route else route0
      if v.available_seats ≤ 0 then
        ⟨st, .err "No available seats for this route/vehicle" (-1), r.2, []⟩
      else
        let na := v.available_seats - 1
        ⟨updateSeatAvailability st v.uri na, .ok route v.uri na,
          r.2 ++ [DBOp.opUpdateSeatAvailability v.uri na],
          [MEvent.seatReserved route v.uri na]⟩

/-- The fields `handleTicketPurchase` reads from the request message; the
`Option` fields record `hasKey`, which this handler checks before reading. -/
structure PurchaseRequest where
  session_id : Option String
  urn : Option String
  ticket_type : Int
  vehicle_type : Int
  route : String
  uri : String
  passengers : Option Int
deriving DecidableEq

/-- The response of the ticket-purchase handler. -/
inductive PurchaseResp where
  | err (msg : String) (code : Int)
  | ok (total_amount : ℚ) (route vehicle_uri : String) (available_seats : Int)
      (passengers : Int) (user_urn : String)
deriving DecidableEq

/-- Result of `handleTicketPurchase`. -/
structure PurchaseOutcome where
  db : DBState
  resp : PurchaseResp
  ops : List DBOp
  events : List MEvent
deriving DecidableEq

/-- Vehicle resolution of `handleTicketPurchase`: by URI, else by route and
the requested kind only — no fallback over the other kinds. -/
def purchaseResolve (st : DBState) (uri route : String) (vt : Int) :
    Option (Vehicle × Int × String) × List DBOp :=
  if uri ≠ "" then
    match getVehicle st uri with
    | some v => (some (v, v.vtype, v.route), [DBOp.opGetVehicle uri])
    | none =>
      if route ≠ "" then
        match getVehicleByRouteAndType st route vt with
        | some v => (some (v, vt, route),
            [DBOp.opGetVehicle uri, DBOp.opGetVehicleByRouteAndType route vt])
        | none =>
          (none, [DBOp.opGetVehicle uri,
            DBOp.opGetVehicleByRouteAndType route vt])
      else (none, [DBOp.opGetVehicle uri])
  else if route ≠ "" then
    match getVehicleByRouteAndType st route vt with
    | some v => (some (v, vt, route), [DBOp.opGetVehicleByRouteAndType route vt])
    | none => (none, [DBOp.opGetVehicleByRouteAndType route vt])
  else (none, [])

/-- `CentralServer::generateTicketId`: `"TKT_" + (++counter) + "_" + time`. -/
def ticketId (n : Nat) (now : String) : String :=
  "TKT_" ++ toString n ++ "_" ++ now

/-- `CentralServer::generateTransactionId`: `"TX_" + (++counter) + "_" + time`. -/
def transactionId (n : Nat) (now : String) : String :=
  "TX_" ++ toString n ++ "_" ++ now

/-- The `i`-th ticket row built inside the purchase loop: seat number
`capacity − available_seats + i + 1`, the handler's `discount = 0.0`. -/
def purchaseTicketRow (urn : String) (tt vt : Int) (route : String) (price : ℚ)
    (when_buy : String) (cap avail : Int) (tctr i : Nat) : Ticket :=
  { ticket_id := ticketId (tctr + i + 1) when_buy
    user_urn := urn
    ttype := tt
    vtype := vt
    route := route
    price := price
    discount := 0
    purchase_date := when_buy
    seat_number := toString (cap - avail + (i : Int) + 1)
    used := false }

/-- The `for (i = 0; i < passengers; ++i)` ticket-creation loop: on a failed
insert it stops, keeping the effects of the earlier inserts (`false` flag);
otherwise it returns the created ids in order. -/
def createTicketsLoop (mk : Nat → Ticket) :
    Nat → Nat → DBState → DBState × List String × List DBOp × Bool
  | _, 0, st => (st, [], [], true)
  | i, n + 1, st =>
    let t := mk i
    match createTicket st t with
    | none => (st, [], [DBOp.opCreateTicket t.ticket_id], false)
    | some st2 =>
      let r := createTicketsLoop mk (i + 1) n st2
      (r.1, t.ticket_id :: r.2.1, DBOp.opCreateTicket t.ticket_id :: r.2.2.1,
        r.2.2.2)

/-- The caller-identity step of `handleTicketPurchase`: a supplied
`session_id` must resolve through the session table (`none` models the 401
rejection); otherwise the raw `urn` key, if any, is used ("" when absent). -/
def purchaseIdentity (sessions : List (String × String))
    (req : PurchaseRequest) : Option String :=
  match req.session_id with
  | some sid =>
    match sessions.find? (fun p => p.1 == sid) with
    | none => none
    | some p => some p.2
  | none => some (match req.urn with | some u => u | none => "")

/-- The passenger count `handleTicketPurchase` uses: the `passengers` key when
present, default `1`, clamped below at `1`. -/
def purchasePax (req : PurchaseRequest) : Int :=
  let p0 : Int :=
    match req.passengers with
    | some p => p
    | none => 1
  if p0 < 1 then 1 else p0

/-- `CentralServer::handleTicketPurchase`.  `sessions` is the session table
(`session_id ↦ user_urn`); `tctr`/`pctr` are the ticket/transaction counters
and `now` the current timestamp string. -/
def handleTicketPurchase (sessions : List (String × String)) (st : DBState)
    (req : PurchaseRequest) (tctr pctr : Nat) (now : String) :
    PurchaseOutcome :=
  match purchaseIdentity sessions req with
  | none => ⟨st, .err "Invalid or expired session" 401, [], []⟩
  | some urn =>
    if urn = "" then
      ⟨st, .err "Missing user identity (session_id or urn)" 400, [], []⟩
    else
      let passengers : Int := purchasePax req
      let r := purchaseResolve st req.uri req.route req.vehicle_type
      match r.1 with
      | none => ⟨st, .err "Vehicle/route not found" 404, r.2, []⟩
      | some (v, vt2, route0) =>
        let route := if route0 = "" then v.route else route0
        if v.available_seats < passengers then
          ⟨st, .err "Insufficient seats available" 409, r.2, []⟩
        else
          let price_each := calculateTicketPrice vt2 req.ticket_type 1 1 30
          let total_amount := price_each * (passengers : ℚ)
          let mk := purchaseTicketRow urn req.ticket_type vt2 route price_each
            now v.capacity v.available_seats tctr
          let lr := createTicketsLoop mk 0 passengers.toNat st
          if lr.2.2.2 = false then
            ⟨lr.1, .err "Failed to create ticket record: Failed to insert ticket"
              500, r.2 ++ lr.2.2.1, []⟩
          else
            let pay : Payment :=
              { transaction_id := transactionId (pctr + 1) now
                ticket_id :=
                  match lr.2.1 with
                  | [] => ""
                  | x :: _ => x
                amount := total_amount
                payment_method := "card"
                payment_date := now
                successful := true }
            match recordPayment lr.1 pay with
            | none => ⟨lr.1, .err "Failed to record payment: Failed to insert payment"
                500, r.2 ++ lr.2.2.1 ++ [DBOp.opRecordPayment pay.transaction_id],
                []⟩
            | some st3 =>
              let na := v.available_seats - passengers
              ⟨updateSeatAvailability st3 v.uri na,
                .ok total_amount route v.uri na passengers urn,
                r.2 ++ lr.2.2.1 ++ [DBOp.opRecordPayment pay.transaction_id,
                  DBOp.opUpdateSeatAvailability v.uri na],
                [MEvent.ticketPurchased route v.uri passengers na]⟩

/-- The response of the group-membership handlers. -/
inductive GroupResp where
  | err (msg : String) (code : Int)
  | okMsg (msg : String)
deriving DecidableEq

/-- Result of `handleRemoveMemberFromGroup`. -/
structure GroupOutcome where
  db : DBState
  resp : GroupResp
deriving DecidableEq

/-- `CentralServer::requireGroupLeader`: resolve the caller URN via the
session (`401` when invalid), look up the group leader (`404` when the group
is absent or has no leader), `403` when the caller is not the leader;
`none` means the caller is authorized. -/
def requireGroupLeader (sessions : List (String × String)) (st : DBState)
    (session_id group_name : String) : Option GroupResp :=
  match sessions.find? (fun p => p.1 == session_id) with
  | none => some (.err "Invalid or expired session" 401)
  | some p =>
    let leader := getGroupLeader st group_name
    if leader = "" then some (.err "Group not found or no leader set" 404)
    else if leader ≠ p.2 then
      some (.err "Admin (group leader) privileges required" 403)
    else none

/-- `CentralServer::handleRemoveMemberFromGroup`. -/
def handleRemoveMemberFromGroup (sessions : List (String × String))
    (st : DBState) (sid urn group : String) : GroupOutcome :=
  if sid = "" ∨ group = "" ∨ urn = "" then
    ⟨st, .err "Missing required fields (session_id, group_name, urn)" 400⟩
  else
    match requireGroupLeader sessions st sid group with
    | some r => ⟨st, r⟩
    | none =>
      match removeUserFromGroup st urn group with
      | some st2 => ⟨st2, .okMsg "User removed from group"⟩
      | none => ⟨st, .err "Failed to remove user from group" 500⟩

/-! ## Handler lemmas -/

theorem fallbackScan_ops_no_txn (st : DBState) (route : String) (skip : Int)
    (ts : List Int) :
    ∀ op ∈ (fallbackScan st route skip ts).2, op.isTxn = false := by
  induction ts with
  | nil => intro op h; simp [fallbackScan] at h
  | cons t ts ih =>
    intro op h
    rw [fallbackScan] at h
    split at h
    · exact ih op h
    · split at h
      · simp at h
        subst h
        rfl
      · simp at h
        rcases h with h | h
        · subst h; rfl
        · exact ih op h

theorem reserveResolve_ops_no_txn (st : DBState) (uri route : String)
    (vt : Int) :
    ∀ op ∈ (reserveResolve st uri route vt).2, op.isTxn = false := by
  intro op h
  rw [reserveResolve] at h
  repeat' split at h
  all_goals simp only [List.mem_cons, List.mem_singleton,
    List.not_mem_nil] at h
  all_goals casesm* _ ∨ _
  all_goals
    first
    | exact fallbackScan_ops_no_txn st route vt [1, 2, 3] op (by assumption)
    | simp_all [DBOp.isTxn]

/-! ## C1 and C9: the seat-reservation handler -/

/-- A registered user for the concrete scenarios. -/
def rvUser : User := ⟨"1000000000001", "User", 25, "2025-01-01", true, "h"⟩

/-- A bus with three free seats on route `R1`. -/
def rvBus : Vehicle := ⟨"bus42", 1, 3, 3, "R1", true, "t"⟩

/-- A tram with five free seats on route `R2`. -/
def rvTram : Vehicle := ⟨"tram7", 2, 10, 5, "R2", true, "t"⟩

/-- A database with one user and the two vehicles. -/
def rvSt : DBState := ⟨[rvUser], [], [], [rvBus, rvTram], [], [], 1⟩

/-- C1 counterexample: a successful ReserveSeat run issues exactly one vehicle
read and one seat update — the read-check-decrement is not bracketed by
begin/commit, and no rollback exists on any path. -/
theorem C1_counterexample :
    (handleSeatReservation rvSt ⟨1, "", "bus42", "1000000000001"⟩).resp =
      ReserveResp.ok "R1" "bus42" 2 ∧
    (handleSeatReservation rvSt ⟨1, "", "bus42", "1000000000001"⟩).ops =
      [DBOp.opGetVehicle "bus42", DBOp.opUpdateSeatAvailability "bus42" 2] ∧
    DBOp.beginTxn ∉
      (handleSeatReservation rvSt ⟨1, "", "bus42", "1000000000001"⟩).ops ∧
    DBOp.commitTxn ∉
      (handleSeatReservation rvSt ⟨1, "", "bus42", "1000000000001"⟩).ops := by
  decide

/-- C1 as the code has it: the ReserveSeat handler performs the
read-check-decrement WITHOUT transaction bracketing — its database-call trace
never contains begin/commit/rollback; on every failure path the database is
left unchanged (nothing to roll back, since nothing was written), and on
success the only write is the single seat-count update of the resolved
vehicle. -/
theorem C1_reserve_no_transaction (st : DBState) (req : ReserveRequest) :
    (∀ op ∈ (handleSeatReservation st req).ops, op.isTxn = false) ∧
    (∀ msg code,
      (handleSeatReservation st req).resp = ReserveResp.err msg code →
      (handleSeatReservation st req).db = st) ∧
    (∀ route uri na,
      (handleSeatReservation st req).resp = ReserveResp.ok route uri na →
      ∃ v vt2 route0,
        (reserveResolve st req.uri req.route req.vehicle_type).1 =
          some (v, vt2, route0) ∧
        0 < v.available_seats ∧ na = v.available_seats - 1 ∧ uri = v.uri ∧
        (handleSeatReservation st req).db =
          updateSeatAvailability st v.uri (v.available_seats - 1)) := by
  by_cases hu : req.urn = ""
  · refine ⟨?_, ?_, ?_⟩
    · intro op h
      simp [handleSeatReservation, hu] at h
    · intro msg code _
      simp [handleSeatReservation, hu]
    · intro route uri na hok
      simp [handleSeatReservation, hu] at hok
  · rcases hr : reserveResolve st req.uri req.route req.vehicle_type
      with ⟨ores, rops⟩
    have hops : ∀ op ∈ rops, op.isTxn = false := by
      intro op h
      apply reserveResolve_ops_no_txn st req.uri req.route req.vehicle_type
      rw [hr]
      exact h
    rcases ores with _ | ⟨v, vt2, route0⟩
    · refine ⟨?_, ?_, ?_⟩
      · intro op h
        simp only [handleSeatReservation, hu, if_false, hr] at h
        exact hops op h
      · intro msg code _
        simp [handleSeatReservation, hu, hr]
      · intro route uri na hok
        simp [handleSeatReservation, hu, hr] at hok
    · by_cases hs : v.available_seats ≤ 0
      · refine ⟨?_, ?_, ?_⟩
        · intro op h
          simp only [handleSeatReservation, hu, if_false, hr, hs, if_true] at h
          exact hops op h
        · intro msg code _
          simp [handleSeatReservation, hu, hr, hs]
        · intro route uri na hok
          simp [handleSeatReservation, hu, hr, hs] at hok
      · refine ⟨?_, ?_, ?_⟩
        · intro op h
          simp only [handleSeatReservation, hu, if_false, hr, hs,
            List.mem_append, List.mem_singleton] at h
          rcases h with h | h
          · exact hops op h
          · subst h; rfl
        · intro msg code hresp
          simp [handleSeatReservation, hu, hr, hs] at hresp
        · intro route uri na hok
          simp only [handleSeatReservation, hu, if_false, hr, hs,
            ReserveResp.ok.injEq] at hok
          refine ⟨v, vt2, route0, by simp [hr], by omega, hok.2.2.symm,
            hok.2.1.symm, ?_⟩
          simp [handleSeatReservation, hu, hr, hs]

/-- C9 counterexample: a ReserveSeat request with a missing URN is answered
with error code `-1` (the `sendErrorResponse` default), not `400`. -/
theorem C9_counterexample :
    (handleSeatReservation rvSt ⟨1, "", "bus42", ""⟩).resp =
      ReserveResp.err "Missing user URN" (-1) ∧ (-1 : Int) ≠ 400 := by
  decide

/-- C9 as the code has it: the ReserveSeat handler rejects a missing URN, an
unresolved vehicle, and an exhausted vehicle with the corresponding message —
but every such rejection carries error code `-1` (the `sendErrorResponse`
default), never 400/404/409. -/
theorem C9_reserve_error_codes (st : DBState) (req : ReserveRequest) :
    (req.urn = "" →
      (handleSeatReservation st req).resp =
        ReserveResp.err "Missing user URN" (-1)) ∧
    (req.urn ≠ "" →
      (reserveResolve st req.uri req.route req.vehicle_type).1 = none →
      (handleSeatReservation st req).resp =
        ReserveResp.err "Vehicle/route not found" (-1)) ∧
    (∀ v vt2 route0, req.urn ≠ "" →
      (reserveResolve st req.uri req.route req.vehicle_type).1 =
        some (v, vt2, route0) →
      v.available_seats ≤ 0 →
      (handleSeatReservation st req).resp =
        ReserveResp.err "No available seats for this route/vehicle" (-1)) ∧
    (∀ msg code, (handleSeatReservation st req).resp =
      ReserveResp.err msg code → code = -1) := by
  refine ⟨?_, ?_, ?_, ?_⟩
  · intro hu
    simp [handleSeatReservation, hu]
  · intro hu hnone
    simp [handleSeatReservation, hu, hnone]
  · intro v vt2 route0 hu hsome hs
    simp [handleSeatReservation, hu, hsome, hs]
  · intro msg code hresp
    by_cases hu : req.urn = ""
    · simp [handleSeatReservation, hu] at hresp
      omega
    · rcases hr : (reserveResolve st req.uri req.route req.vehicle_type).1
        with _ | ⟨v, vt2, route0⟩
      · simp [handleSeatReservation, hu, hr] at hresp
        omega
      · by_cases hs : v.available_seats ≤ 0
        · simp [handleSeatReservation, hu, hr, hs] at hresp
          omega
        · simp [handleSeatReservation, hu, hr, hs] at hresp

/-! ## Purchase-handler lemmas -/

theorem purchaseResolve_ops_no_txn (st : DBState) (uri route : String)
    (vt : Int) :
    ∀ op ∈ (purchaseResolve st uri route vt).2, op.isTxn = false := by
  intro op h
  rw [purchaseResolve] at h
  repeat' split at h
  all_goals simp only [List.mem_cons, List.mem_singleton,
    List.not_mem_nil] at h
  all_goals casesm* _ ∨ _
  all_goals simp_all [DBOp.isTxn]

theorem createTicket_some (st : DBState) (t : Ticket) (st2 : DBState)
    (h : createTicket st t = some st2) :
    st2 = { st with tickets := st.tickets ++ [t] } := by
  rw [createTicket] at h
  split at h
  · exact absurd h (by simp)
  · split at h
    · exact absurd h (by simp)
    · injection h with h
      exact h.symm

theorem recordPayment_some (st : DBState) (p : Payment) (st2 : DBState)
    (h : recordPayment st p = some st2) :
    st2 = { st with payments := st.payments ++ [p] } := by
  rw [recordPayment] at h
  split at h
  · exact absurd h (by simp)
  · split at h
    · exact absurd h (by simp)
    · injection h with h
      exact h.symm

theorem createTicketsLoop_ops_no_txn (mk : Nat → Ticket) :
    ∀ (n i : Nat) (st : DBState),
      ∀ op ∈ (createTicketsLoop mk i n st).2.2.1, op.isTxn = false := by
  intro n
  induction n with
  | zero => intro i st op h; simp [createTicketsLoop] at h
  | succ n ih =>
    intro i st op h
    rw [createTicketsLoop] at h
    split at h
    · simp at h
      subst h
      rfl
    · simp only [List.mem_cons] at h
      rcases h with h | h
      · subst h; rfl
      · exact ih (i + 1) _ op h

theorem createTicketsLoop_ok (mk : Nat → Ticket) :
    ∀ (n i : Nat) (st : DBState),
      (createTicketsLoop mk i n st).2.2.2 = true →
      (createTicketsLoop mk i n st).1 =
        { st with tickets :=
            st.tickets ++ (List.range n).map (fun j => mk (i + j)) } ∧
      (createTicketsLoop mk i n st).2.1 =
        (List.range n).map (fun j => (mk (i + j)).ticket_id) := by
  intro n
  induction n with
  | zero =>
    intro i st _
    simp [createTicketsLoop]
  | succ n ih =>
    intro i st hflag
    rw [createTicketsLoop] at hflag ⊢
    rcases hct : createTicket st (mk i) with _ | st2
    · rw [hct] at hflag
      simp at hflag
    · rw [hct] at hflag
      simp only at hflag ⊢
      have hst2 := createTicket_some st (mk i) st2 hct
      obtain ⟨ih1, ih2⟩ := ih (i + 1) st2 hflag
      have hshift : (List.range n).map (fun j => mk (i + 1 + j)) =
          (List.range n).map (fun j => mk (i + (j + 1))) := by
        apply List.map_congr_left
        intro j _
        congr 1
        omega
      have hshift2 : (List.range n).map (fun j => (mk (i + 1 + j)).ticket_id) =
          (List.range n).map (fun j => (mk (i + (j + 1))).ticket_id) := by
        apply List.map_congr_left
        intro j _
        congr 2
        omega
      constructor
      · rw [ih1, hst2]
        rw [List.range_succ_eq_map]
        simp only [List.map_cons, List.map_map]
        rw [hshift]
        simp [Function.comp]
      · rw [ih2]
        rw [List.range_succ_eq_map]
        simp only [List.map_cons, List.map_map]
        rw [hshift2]
        simp [Function.comp]

theorem createTicketsLoop_fail (mk : Nat → Ticket) :
    ∀ (n i : Nat) (st : DBState),
      (createTicketsLoop mk i n st).2.2.2 = false →
      ∃ k, k < n ∧ (createTicketsLoop mk i n st).1 =
        { st with tickets :=
            st.tickets ++ (List.range k).map (fun j => mk (i + j)) } := by
  intro n
  induction n with
  | zero =>
    intro i st hflag
    simp [createTicketsLoop] at hflag
  | succ n ih =>
    intro i st hflag
    rw [createTicketsLoop] at hflag ⊢
    rcases hct : createTicket st (mk i) with _ | st2
    · refine ⟨0, by omega, ?_⟩
      simp
    · rw [hct] at hflag
      simp only at hflag ⊢
      have hst2 := createTicket_some st (mk i) st2 hct
      obtain ⟨k, hk, hkeq⟩ := ih (i + 1) st2 hflag
      refine ⟨k + 1, by omega, ?_⟩
      have hshift : (List.range k).map (fun j => mk (i + 1 + j)) =
          (List.range k).map (fun j => mk (i + (j + 1))) := by
        apply List.map_congr_left
        intro j _
        congr 1
        omega
      rw [hkeq, hst2]
      rw [List.range_succ_eq_map]
      simp only [List.map_cons, List.map_map]
      rw [hshift]
      simp [Function.comp]

/-- Full characterization of a successful ticket purchase: which identity,
vehicle, count and price reached the response, and the exact final database:
the N ticket rows appended, one payment row referencing the first ticket id,
and the decremented seat count. -/
theorem handleTicketPurchase_ok (sessions : List (String × String))
    (st : DBState) (req : PurchaseRequest) (tctr pctr : Nat) (now : String)
    (total : ℚ) (route vuri : String) (na pax : Int) (urn : String)
    (hok : (handleTicketPurchase sessions st req tctr pctr now).resp =
      PurchaseResp.ok total route vuri na pax urn) :
    ∃ v vt2 route0,
      purchaseIdentity sessions req = some urn ∧ urn ≠ "" ∧
      (purchaseResolve st req.uri req.route req.vehicle_type).1 =
        some (v, vt2, route0) ∧
      pax = purchasePax req ∧ 1 ≤ pax ∧
      pax ≤ v.available_seats ∧
      total = (pax : ℚ) ∧
      route = (if route0 = "" then v.route else route0) ∧
      vuri = v.uri ∧ na = v.available_seats - pax ∧
      (handleTicketPurchase sessions st req tctr pctr now).db =
        { st with
            tickets := st.tickets ++ (List.range pax.toNat).map
              (purchaseTicketRow urn req.ticket_type vt2
                (if route0 = "" then v.route else route0) 1 now
                v.capacity v.available_seats tctr),
            payments := st.payments ++ [⟨transactionId (pctr + 1) now,
              ticketId (tctr + 1) now, total, "card", now, true⟩],
            vehicles := st.vehicles.map (fun w =>
              if w.uri == v.uri then
                { w with available_seats := v.available_seats - pax }
              else w) } := by
  have hpax1 : 1 ≤ purchasePax req := by
    rw [purchasePax]
    split <;> omega
  rcases hid : purchaseIdentity sessions req with _ | urn0
  · simp [handleTicketPurchase, hid] at hok
  · by_cases hu : urn0 = ""
    · simp [handleTicketPurchase, hid, hu] at hok
    · rcases hrv : purchaseResolve st req.uri req.route req.vehicle_type
        with ⟨ores, rops⟩
      rcases ores with _ | ⟨v, vt2, route0⟩
      · simp [handleTicketPurchase, hid, hu, hrv] at hok
      · by_cases hseats : v.available_seats < purchasePax req
        · simp [handleTicketPurchase, hid, hu, hrv, hseats] at hok
        · rcases hflag : (createTicketsLoop
              (purchaseTicketRow urn0 req.ticket_type vt2
                (if route0 = "" then v.route else route0)
                (calculateTicketPrice vt2 req.ticket_type 1 1 30) now
                v.capacity v.available_seats tctr)
              0 (purchasePax req).toNat st).2.2.2 with _ | _
          · simp [handleTicketPurchase, hid, hu, hrv, hseats, hflag] at hok
          · obtain ⟨hloop1, hloop2⟩ := createTicketsLoop_ok _ _ _ _ hflag
            set mk := purchaseTicketRow urn0 req.ticket_type vt2
              (if route0 = "" then v.route else route0)
              (calculateTicketPrice vt2 req.ticket_type 1 1 30) now
              v.capacity v.available_seats tctr with hmk
            set lr := createTicketsLoop mk 0 (purchasePax req).toNat st
              with hlr
            have hids : lr.2.1 ≠ [] := by
              rw [hloop2]
              have : 0 < (purchasePax req).toNat := by omega
              simp [List.range_eq_nil]
              omega
            rcases hpay : recordPayment lr.1
                ⟨transactionId (pctr + 1) now,
                  (match lr.2.1 with | [] => "" | x :: _ => x),
                  calculateTicketPrice vt2 req.ticket_type 1 1 30 *
                    (purchasePax req : ℚ), "card", now, true⟩
                with _ | st3
            · simp only [handleTicketPurchase, hid, hu, if_false, hrv, hseats,
                hflag, ← hmk, ← hlr, hpay] at hok
              simp at hok
            · simp only [handleTicketPurchase, hid, hu, if_false, hrv, hseats,
                hflag, ← hmk, ← hlr, hpay] at hok
              rw [if_neg (by decide : ¬(true = false))] at hok
              simp only [PurchaseResp.ok.injEq, calculateTicketPrice,
                one_mul] at hok
              obtain ⟨htot, hroute, hvuri, hna, hpx, hurn⟩ := hok
              subst hurn
              refine ⟨v, vt2, route0, rfl, hu, rfl, hpx.symm,
                by omega, by omega, ?_, hroute.symm, hvuri.symm, ?_, ?_⟩
              · rw [← htot, ← hpx]
              · omega
              · have hst3 := recordPayment_some _ _ _ hpay
                have hfirst : (match lr.2.1 with | [] => "" | x :: _ => x) =
                    ticketId (tctr + 1) now := by
                  rw [hloop2]
                  have h1 : (purchasePax req).toNat =
                      ((purchasePax req).toNat - 1) + 1 := by omega
                  rw [h1, List.range_succ_eq_map]
                  simp [hmk, purchaseTicketRow, ticketId]
                simp only [handleTicketPurchase, hid, hu, if_false, hrv,
                  hseats, hflag, ← hmk, ← hlr, hpay]
                rw [if_neg (by decide : ¬(true = false))]
                simp only [updateSeatAvailability, hst3, hloop1]
                subst hpx
                rw [← htot]
                simp only [hfirst, calculateTicketPrice, one_mul]
                simp [hmk, calculateTicketPrice]

theorem handleTicketPurchase_ops_no_txn (sessions : List (String × String))
    (st : DBState) (req : PurchaseRequest) (tctr pctr : Nat) (now : String) :
    ∀ op ∈ (handleTicketPurchase sessions st req tctr pctr now).ops,
      op.isTxn = false := by
  intro op hop
  rcases hid : purchaseIdentity sessions req with _ | urn0
  · simp [handleTicketPurchase, hid] at hop
  · by_cases hu : urn0 = ""
    · simp [handleTicketPurchase, hid, hu] at hop
    · rcases hrv : purchaseResolve st req.uri req.route req.vehicle_type
        with ⟨ores, rops⟩
      have hropsn : ∀ o ∈ rops, DBOp.isTxn o = false := by
        intro o ho
        apply purchaseResolve_ops_no_txn st req.uri req.route req.vehicle_type
        rw [hrv]
        exact ho
      rcases ores with _ | ⟨v, vt2, route0⟩
      · simp only [handleTicketPurchase, hid, hu, if_false, hrv] at hop
        exact hropsn op hop
      · by_cases hseats : v.available_seats < purchasePax req
        · simp only [handleTicketPurchase, hid, hu, if_false, hrv, hseats,
            if_true, List.not_mem_nil] at hop
          exact hropsn op hop
        · set mk := purchaseTicketRow urn0 req.ticket_type vt2
            (if route0 = "" then v.route else route0)
            (calculateTicketPrice vt2 req.ticket_type 1 1 30) now
            v.capacity v.available_seats tctr with hmk
          have hloopn : ∀ o ∈ (createTicketsLoop mk 0
              (purchasePax req).toNat st).2.2.1, DBOp.isTxn o = false :=
            createTicketsLoop_ops_no_txn mk _ 0 st
          rcases hflag : (createTicketsLoop mk 0
              (purchasePax req).toNat st).2.2.2 with _ | _
          · simp only [handleTicketPurchase, hid, hu, if_false, hrv, hseats,
              ← hmk, hflag] at hop
            simp only [reduceIte] at hop
            simp only [List.mem_append] at hop
            rcases hop with h | h
            · exact hropsn op h
            · exact hloopn op h
          · rcases hpay : recordPayment
                (createTicketsLoop mk 0 (purchasePax req).toNat st).1
                ⟨transactionId (pctr + 1) now,
                  (match (createTicketsLoop mk 0
                    (purchasePax req).toNat st).2.1 with
                   | [] => "" | x :: _ => x),
                  calculateTicketPrice vt2 req.ticket_type 1 1 30 *
                    (purchasePax req : ℚ), "card", now, true⟩
                with _ | st3
            all_goals
              simp only [handleTicketPurchase, hid, hu, if_false, hrv, hseats,
                ← hmk, hflag, hpay] at hop
            all_goals rw [if_neg (by decide : ¬(true = false))] at hop
            all_goals simp only [List.append_eq, List.mem_append,
              List.mem_cons, List.mem_singleton, List.not_mem_nil,
              or_false] at hop
            · rcases hop with (h | h) | h
              · exact hropsn op h
              · exact hloopn op h
              · subst h; rfl
            · rcases hop with (h | h) | h | h
              · exact hropsn op h
              · exact hloopn op h
              · subst h; rfl
              · subst h; rfl

theorem handleTicketPurchase_create_fail (sessions : List (String × String))
    (st : DBState) (req : PurchaseRequest) (tctr pctr : Nat) (now : String)
    (urn : String)
    (hid : purchaseIdentity sessions req = some urn) (hu : urn ≠ "")
    (hresp : (handleTicketPurchase sessions st req tctr pctr now).resp =
      PurchaseResp.err "Failed to create ticket record: Failed to insert ticket"
        500) :
    ∃ v vt2 route0 k,
      (purchaseResolve st req.uri req.route req.vehicle_type).1 =
        some (v, vt2, route0) ∧
      k < (purchasePax req).toNat ∧
      (handleTicketPurchase sessions st req tctr pctr now).db =
        { st with tickets := st.tickets ++
            (List.range k).map (purchaseTicketRow urn req.ticket_type vt2
              (if route0 = "" then v.route else route0) 1 now
              v.capacity v.available_seats tctr) } := by
  rcases hrv : purchaseResolve st req.uri req.route req.vehicle_type
    with ⟨ores, rops⟩
  rcases ores with _ | ⟨v, vt2, route0⟩
  · simp [handleTicketPurchase, hid, hu, hrv] at hresp
  · by_cases hseats : v.available_seats < purchasePax req
    · simp [handleTicketPurchase, hid, hu, hrv, hseats] at hresp
    · set mk := purchaseTicketRow urn req.ticket_type vt2
        (if route0 = "" then v.route else route0)
        (calculateTicketPrice vt2 req.ticket_type 1 1 30) now
        v.capacity v.available_seats tctr with hmk
      rcases hflag : (createTicketsLoop mk 0
          (purchasePax req).toNat st).2.2.2 with _ | _
      · obtain ⟨k, hk, hkeq⟩ := createTicketsLoop_fail mk _ 0 st hflag
        refine ⟨v, vt2, route0, k, rfl, hk, ?_⟩
        simp only [handleTicketPurchase, hid, hu, if_false, hrv, hseats,
          ← hmk, hflag]
        simp only [reduceIte]
        simp only [hkeq]
        have hcongr : (List.range k).map (fun j => mk (0 + j)) =
            (List.range k).map mk := by
          apply List.map_congr_left
          intro j _
          congr 1
          omega
        rw [hcongr]
        simp [hmk, calculateTicketPrice]
      · rcases hpay : recordPayment
            (createTicketsLoop mk 0 (purchasePax req).toNat st).1
            ⟨transactionId (pctr + 1) now,
              (match (createTicketsLoop mk 0
                (purchasePax req).toNat st).2.1 with
               | [] => "" | x :: _ => x),
              calculateTicketPrice vt2 req.ticket_type 1 1 30 *
                (purchasePax req : ℚ), "card", now, true⟩
            with _ | st3
        all_goals
          simp only [handleTicketPurchase, hid, hu, if_false, hrv, hseats,
            ← hmk, hflag, hpay] at hresp
        all_goals rw [if_neg (by decide : ¬(true = false))] at hresp
        · simp only [PurchaseResp.err.injEq] at hresp
          exact absurd hresp.1 (by decide)
        · simp at hresp

/-! ## C2 and C5: the ticket-purchase handler -/

/-- A ticket already sitting in the store whose id collides with the second
generated id `TKT_2_T`. -/
def cexTicket : Ticket := ⟨"TKT_2_T", "1000000000001", 1, 1, "R1", 1, 0,
  "2025-01-01", "1", false⟩

/-- A database in which the second ticket insert of a 2-passenger purchase
hits a primary-key conflict. -/
def cexSt : DBState := ⟨[rvUser], [], [], [rvBus], [cexTicket], [], 1⟩

/-- C2 counterexample: a 2-passenger purchase whose second ticket insert
fails reports the 500 error but leaves the first inserted ticket row in the
store — the effects of the earlier step are not rolled back — and its trace
contains no transaction bracket that could have rolled them back. -/
theorem C2_counterexample :
    (handleTicketPurchase [] cexSt
        ⟨none, some "1000000000001", 1, 1, "", "bus42", some 2⟩
        0 0 "T").resp =
      PurchaseResp.err
        "Failed to create ticket record: Failed to insert ticket" 500 ∧
    (handleTicketPurchase [] cexSt
        ⟨none, some "1000000000001", 1, 1, "", "bus42", some 2⟩
        0 0 "T").db.tickets =
      cexSt.tickets ++ [purchaseTicketRow "1000000000001" 1 1 "R1"
        (calculateTicketPrice 1 1 1 1 30) "T" 3 3 0 0] ∧
    (handleTicketPurchase [] cexSt
        ⟨none, some "1000000000001", 1, 1, "", "bus42", some 2⟩
        0 0 "T").db.tickets ≠ cexSt.tickets ∧
    DBOp.beginTxn ∉ (handleTicketPurchase [] cexSt
        ⟨none, some "1000000000001", 1, 1, "", "bus42", some 2⟩
        0 0 "T").ops ∧
    DBOp.rollbackTxn ∉ (handleTicketPurchase [] cexSt
        ⟨none, some "1000000000001", 1, 1, "", "bus42", some 2⟩
        0 0 "T").ops := by
  refine ⟨rfl, rfl, ?_, by decide, by decide⟩
  intro h
  rw [show (handleTicketPurchase [] cexSt
      ⟨none, some "1000000000001", 1, 1, "", "bus42", some 2⟩
      0 0 "T").db.tickets =
    cexSt.tickets ++ [purchaseTicketRow "1000000000001" 1 1 "R1"
      (calculateTicketPrice 1 1 1 1 30) "T" 3 3 0 0] from rfl] at h
  have hlen := congrArg List.length h
  simp [cexSt] at hlen

/-- C2 as the code has it: the purchase runs its five steps in order —
resolve vehicle, check seats, create the N ticket rows with seat numbers
`capacity − available_seats + i + 1`, insert one payment row referencing the
first ticket id, decrement the seats — but NOT as one atomic unit: no
transaction is ever issued, and when a later step fails the effects of the
earlier completed steps persist (a prefix of the ticket rows stays inserted). -/
theorem C2_purchase_steps_not_atomic (sessions : List (String × String))
    (st : DBState) (req : PurchaseRequest) (tctr pctr : Nat) (now : String) :
    (∀ op ∈ (handleTicketPurchase sessions st req tctr pctr now).ops,
      op.isTxn = false) ∧
    (∀ total route vuri na pax urn,
      (handleTicketPurchase sessions st req tctr pctr now).resp =
        PurchaseResp.ok total route vuri na pax urn →
      ∃ v vt2 route0,
        (purchaseResolve st req.uri req.route req.vehicle_type).1 =
          some (v, vt2, route0) ∧
        pax = purchasePax req ∧ 1 ≤ pax ∧ pax ≤ v.available_seats ∧
        total = (pax : ℚ) ∧ na = v.available_seats - pax ∧
        (handleTicketPurchase sessions st req tctr pctr now).db =
          { st with
              tickets := st.tickets ++ (List.range pax.toNat).map
                (purchaseTicketRow urn req.ticket_type vt2
                  (if route0 = "" then v.route else route0) 1 now
                  v.capacity v.available_seats tctr),
              payments := st.payments ++ [⟨transactionId (pctr + 1) now,
                ticketId (tctr + 1) now, total, "card", now, true⟩],
              vehicles := st.vehicles.map (fun w =>
                if w.uri == v.uri then
                  { w with available_seats := v.available_seats - pax }
                else w) }) ∧
    (∀ urn, purchaseIdentity sessions req = some urn → urn ≠ "" →
      (handleTicketPurchase sessions st req tctr pctr now).resp =
        PurchaseResp.err
          "Failed to create ticket record: Failed to insert ticket" 500 →
      ∃ v vt2 route0 k,
        (purchaseResolve st req.uri req.route req.vehicle_type).1 =
          some (v, vt2, route0) ∧
        k < (purchasePax req).toNat ∧
        (handleTicketPurchase sessions st req tctr pctr now).db =
          { st with tickets := st.tickets ++
              (List.range k).map (purchaseTicketRow urn req.ticket_type vt2
                (if route0 = "" then v.route else route0) 1 now
                v.capacity v.available_seats tctr) }) := by
  refine ⟨handleTicketPurchase_ops_no_txn sessions st req tctr pctr now,
    ?_, ?_⟩
  · intro total route vuri na pax urn hok
    obtain ⟨v, vt2, route0, hid, hu, hres, hpx, hpax1, hseats, htot, hroute,
      hvuri, hna, hdb⟩ := handleTicketPurchase_ok sessions st req tctr pctr
        now total route vuri na pax urn hok
    exact ⟨v, vt2, route0, hres, hpx, hpax1, hseats, htot, hna, hdb⟩
  · intro urn hid hu hresp
    exact handleTicketPurchase_create_fail sessions st req tctr pctr now urn
      hid hu hresp

/-- C5 counterexample: a successful Family purchase of one seat charges
`1.0` — the family discount of the claimed formula
`base · N · (1 − 10%) = 0.9` is not applied. -/
theorem C5_counterexample :
    (handleTicketPurchase [] rvSt
        ⟨none, some "1000000000001", 2, 1, "", "bus42", some 1⟩
        0 0 "T").resp =
      PurchaseResp.ok (calculateTicketPrice 1 2 1 1 30 * ((1 : Int) : ℚ))
        "R1" "bus42" 2 1 "1000000000001" ∧
    calculateTicketPrice 1 2 1 1 30 * ((1 : Int) : ℚ) = 1 ∧
    calculateDiscount "1000000000001" 2 1 = 1 / 10 ∧
    (1 : ℚ) ≠ 1 * 1 * (1 - 1 / 10) := by
  refine ⟨rfl, by norm_num [calculateTicketPrice], by norm_num [calculateDiscount], by norm_num⟩

/-- C5 as the code has it: every successful purchase of N seats charges
`total_amount = 1.0 · N` — the handler hardcodes `discount = 0.0` and never
calls `Database::calculateDiscount`, although that helper does implement the
claimed rule (10% for the Family kind or three and more seats, else 0%). -/
theorem C5_charged_amount (sessions : List (String × String)) (st : DBState)
    (req : PurchaseRequest) (tctr pctr : Nat) (now : String) :
    (∀ total route vuri na pax urn,
      (handleTicketPurchase sessions st req tctr pctr now).resp =
        PurchaseResp.ok total route vuri na pax urn →
      total = (pax : ℚ) ∧ 1 ≤ pax) ∧
    (∀ urn tt n, calculateDiscount urn tt n =
      if tt = 2 ∨ 3 ≤ n then 1 / 10 else 0) := by
  constructor
  · intro total route vuri na pax urn hok
    obtain ⟨v, vt2, route0, hid, hu, hres, hpx, hpax1, hseats, htot, hroute,
      hvuri, hna, hdb⟩ := handleTicketPurchase_ok sessions st req tctr pctr
        now total route vuri na pax urn hok
    exact ⟨htot, hpax1⟩
  · intro urn tt n
    rw [calculateDiscount]
    by_cases h2 : tt = 2
    · simp [h2]
    · by_cases h3 : (3 : Int) ≤ n
      · simp [h2, h3]
      · simp [h2, h3]

/-! ## C8: route fallback -/

/-- The fallback scan returns the first kind in list order, among those
different from the requested kind, whose route lookup matches. -/
theorem fallbackScan_first (st : DBState) (route : String) (skip : Int)
    (ts : List Int) :
    (fallbackScan st route skip ts).1 =
      (ts.filter (fun t => t != skip)).findSome?
        (fun t => (getVehicleByRouteAndType st route t).map
          (fun v => (v, t))) := by
  induction ts with
  | nil => rfl
  | cons t ts ih =>
    rw [fallbackScan]
    by_cases h : t == skip
    · have hf : (t :: ts).filter (fun t => t != skip) =
          ts.filter (fun t => t != skip) := by
        simp only [List.filter_cons]
        rw [if_neg (by simp_all)]
      rw [if_pos h, hf, ih]
    · have hf : (t :: ts).filter (fun t => t != skip) =
          t :: ts.filter (fun t => t != skip) := by
        simp only [List.filter_cons]
        rw [if_pos (by simp_all)]
      rw [if_neg h, hf, List.findSome?_cons]
      rcases hv : getVehicleByRouteAndType st route t with _ | v
      · simp only [Option.map_none]
        exact ih
      · rfl

/-- C8 counterexample: with only a tram on route `R2`, a Bus-kind request
succeeds on ReserveSeat (which adopts the tram via the fallback scan) but the
same request on PurchaseTicket is answered "Vehicle/route not found" 404 —
the purchase handler has no fallback. -/
theorem C8_counterexample :
    getVehicleByRouteAndType rvSt "R2" 2 = some rvTram ∧
    (handleSeatReservation rvSt ⟨1, "R2", "", "1000000000001"⟩).resp =
      ReserveResp.ok "R2" "tram7" 4 ∧
    (handleTicketPurchase [] rvSt
        ⟨none, some "1000000000001", 1, 1, "R2", "", some 1⟩
        0 0 "T").resp =
      PurchaseResp.err "Vehicle/route not found" 404 := by
  refine ⟨by decide, by decide, rfl⟩

/-- C8 as the code has it: when only a route is supplied and the requested
kind has no matching vehicle, the ReserveSeat resolution falls back to the
first matching kind in the order Bus (1), Tram (2), Trolleybus (3), while the
PurchaseTicket resolution consults only the requested kind and performs no
fallback. -/
theorem C8_fallback_reserve_only (st : DBState) (route : String) (vt : Int) :
    (route ≠ "" → getVehicleByRouteAndType st route vt = none →
      (reserveResolve st "" route vt).1 =
        (([1, 2, 3].filter (fun t => t != vt)).findSome?
          (fun t => (getVehicleByRouteAndType st route t).map
            (fun v => (v, t)))).map (fun p => (p.1, p.2, route))) ∧
    (route ≠ "" →
      (purchaseResolve st "" route vt).1 =
        (getVehicleByRouteAndType st route vt).map
          (fun v => (v, vt, route))) := by
  constructor
  · intro hroute hnone
    rw [reserveResolve]
    simp only [if_neg (by simp : ¬("" : String) ≠ ""), if_pos hroute, hnone]
    rw [fallbackScan_first]
  · intro hroute
    rw [purchaseResolve]
    simp only [if_neg (by simp : ¬("" : String) ≠ ""), if_pos hroute]
    rcases h : getVehicleByRouteAndType st route vt with _ | v
    · simp
    · simp

/-! ## C6: the leader-membership invariant -/

/-- In a duplicate-free group table (pairwise distinct ids), two member
groups with the same id are the same group. -/
theorem group_id_unique (l : List Group)
    (hpw : List.Pairwise (fun a b => a.group_id ≠ b.group_id) l)
    (g g0 : Group) (hg : g ∈ l) (hg0 : g0 ∈ l)
    (hid : g.group_id = g0.group_id) : g = g0 := by
  by_contra hne
  exact (hpw.forall (fun a b hab => hab ∘ Eq.symm) hg hg0 hne) hid

theorem createGroup_preserves (st : DBState) (g : Group) (now : String)
    (st2 : DBState)
    (hw1 : ∀ g0 ∈ st.groups, g0.group_id < st.next_group_id)
    (hinv : leaderActiveMember st)
    (h : createGroup st g now = some st2) : leaderActiveMember st2 := by
  simp only [createGroup] at h
  split at h
  · exact absurd h (by simp)
  · rename_i hdup
    split at h
    · exact absurd h (by simp)
    · have hfold : st.groups.find?
          (fun g0 => g0.group_name == g.group_name) = none := by
        rw [List.find?_eq_none]
        intro x hx hbeq
        exact hdup (List.any_eq_true.mpr ⟨x, hx, hbeq⟩)
      generalize (if g.creation_date = "" then now else g.creation_date) = cr
        at h
      split at h
      · rename_i heq
        rw [List.find?_append, hfold, Option.none_or] at heq
        simp [List.find?] at heq
      · rename_i g2 heq
        rw [List.find?_append, hfold, Option.none_or] at heq
        simp only [List.find?, beq_self_eq_true, Option.some.injEq] at heq
        subst heq
        split at h
        · exact absurd h (by simp)
        · injection h with h
          subst h
          intro g1 hg1
          simp only [List.mem_append, List.mem_singleton] at hg1
          rcases hg1 with hold | hnew
          · obtain ⟨m, hm, h1, h2, h3⟩ := hinv g1 hold
            refine ⟨m, List.mem_append_left _ (List.mem_filter.mpr
              ⟨hm, ?_⟩), h1, h2, h3⟩
            simp only [decide_eq_true_eq]
            intro hcontra
            simp only [Bool.and_eq_true, beq_iff_eq] at hcontra
            have hcg : m.group_id = st.next_group_id := hcontra.1
            have hlt := hw1 g1 hold
            omega
          · subst hnew
            exact ⟨_, List.mem_append_right _ (List.mem_singleton_self _),
              rfl, rfl, rfl⟩

theorem addUserToGroup_preserves (st : DBState) (urn gname now : String)
    (st2 : DBState) (hinv : leaderActiveMember st)
    (h : addUserToGroup st urn gname now = some st2) :
    leaderActiveMember st2 := by
  simp only [addUserToGroup] at h
  split at h
  · exact absurd h (by simp)
  · split at h
    · exact absurd h (by simp)
    · split at h
      · rename_i m0 hm0
        split at h
        · exact absurd h (by simp)
        · injection h with h
          subst h
          intro g1 hg1
          obtain ⟨m, hm, h1, h2, h3⟩ := hinv g1 hg1
          refine ⟨_, List.mem_map_of_mem _ hm, ?_⟩
          split
          · exact ⟨h1, h2, rfl⟩
          · exact ⟨h1, h2, h3⟩
      · injection h with h
        subst h
        intro g1 hg1
        obtain ⟨m, hm, h1, h2, h3⟩ := hinv g1 hg1
        exact ⟨m, List.mem_append_left _ hm, h1, h2, h3⟩

theorem removeUserFromGroup_preserves (st : DBState) (urn gname : String)
    (st2 : DBState)
    (hpw : List.Pairwise (fun a b => a.group_id ≠ b.group_id) st.groups)
    (hinv : leaderActiveMember st) (hne : urn ≠ getGroupLeader st gname)
    (h : removeUserFromGroup st urn gname = some st2) :
    leaderActiveMember st2 := by
  simp only [removeUserFromGroup] at h
  split at h
  · exact absurd h (by simp)
  · rename_i hgid
    split at h
    · exact absurd h (by simp)
    · injection h with h
      subst h
      intro g1 hg1
      obtain ⟨m, hm, h1, h2, h3⟩ := hinv g1 hg1
      refine ⟨m, List.mem_filter.mpr ⟨hm, ?_⟩, h1, h2, h3⟩
      simp only [decide_eq_true_eq]
      intro hcontra
      simp only [Bool.and_eq_true, beq_iff_eq] at hcontra
      obtain ⟨hid, hurn⟩ := hcontra
      rcases hfind : st.groups.find?
          (fun g0 => g0.group_name == gname && g0.active) with _ | g0
      · have hm1 : getGroupIdByName st gname = -1 := by
          simp only [getGroupIdByName, hfind]
        omega
      · have hg0mem : g0 ∈ st.groups := List.mem_of_find?_eq_some hfind
        have hgid_eq : getGroupIdByName st gname = g0.group_id := by
          simp only [getGroupIdByName, hfind]
        have hlead : getGroupLeader st gname = g0.leader_urn := by
          simp only [getGroupLeader, hfind]
        have hgeq : g1 = g0 := by
          apply group_id_unique st.groups hpw g1 g0 hg1 hg0mem
          rw [← h1, hid, hgid_eq]
        exact hne (by rw [← hurn, h2, hgeq, hlead])

/-- A second registered user (not the leader). -/
def grpUser2 : User := ⟨"2000000000002", "Member", 30, "2025-01-01", true, "h"⟩

/-- A group led by user `…001`. -/
def grpG : Group := ⟨1, "TEAM", "1000000000001", "2025-01-01", true⟩

/-- The leader's active membership row. -/
def grpGM : GroupMember := ⟨1, "1000000000001", "2025-01-01", true⟩

/-- A database with the group and its leader as only member. -/
def grpSt : DBState := ⟨[rvUser, grpUser2], [grpG], [grpGM], [], [], [], 2⟩

/-- The second user's active membership row. -/
def grpGM2 : GroupMember := ⟨1, "2000000000002", "2025-01-02", true⟩

/-- The same database with both users as members. -/
def grpSt2 : DBState :=
  ⟨[rvUser, grpUser2], [grpG], [grpGM, grpGM2], [], [], [], 2⟩

/-- C6 counterexample: the leader removes their own membership row through
`removeUserFromGroup`; the call succeeds and afterwards the leader is no
longer an active member of the group. -/
theorem C6_counterexample :
    leaderActiveMember grpSt ∧
    removeUserFromGroup grpSt "1000000000001" "TEAM" =
      some ⟨[rvUser, grpUser2], [grpG], [], [], [], [], 2⟩ ∧
    ¬ leaderActiveMember ⟨[rvUser, grpUser2], [grpG], [], [], [], [], 2⟩ := by
  decide

/-- C6 as the code has it: in a well-formed store, group creation and member
addition preserve the leader-is-active-member invariant, and member removal
preserves it whenever the removed URN is not the group leader — but the
leader URN itself can be removed (see the counterexample), so the invariant
is NOT preserved by every operation. -/
theorem C6_leader_membership (st : DBState) (hw : st.wfIds)
    (hinv : leaderActiveMember st) :
    (∀ g now st2, createGroup st g now = some st2 →
      leaderActiveMember st2) ∧
    (∀ urn gname now st2, addUserToGroup st urn gname now = some st2 →
      leaderActiveMember st2) ∧
    (∀ urn gname st2, urn ≠ getGroupLeader st gname →
      removeUserFromGroup st urn gname = some st2 →
      leaderActiveMember st2) := by
  refine ⟨?_, ?_, ?_⟩
  · intro g now st2 h
    exact createGroup_preserves st g now st2 hw.1 hinv h
  · intro urn gname now st2 h
    exact addUserToGroup_preserves st urn gname now st2 hinv h
  · intro urn gname st2 hne h
    exact removeUserFromGroup_preserves st urn gname st2 hw.2.1 hinv hne h

/-- Witness for C6 at a concrete store: removing the non-leader member
preserves the invariant. -/
theorem C6_leader_membership_witness :
    leaderActiveMember
      ⟨[rvUser, grpUser2], [grpG], [grpGM], [], [], [], 2⟩ := by
  exact (C6_leader_membership grpSt2 (by decide) (by decide)).2.2
    "2000000000002" "TEAM"
    ⟨[rvUser, grpUser2], [grpG], [grpGM], [], [], [], 2⟩
    (by decide) (by decide)

/-! ## C7: leader authorization on member removal -/

/-- C7 counterexample: with a valid session, removal in an absent group is
rejected with code 404, not with 403 semantics. -/
theorem C7_counterexample :
    (handleRemoveMemberFromGroup [("s1", "1000000000001")] grpSt "s1"
      "2000000000002" "NOPE").resp =
      GroupResp.err "Group not found or no leader set" 404 ∧
    (404 : Int) ≠ 403 := by
  decide

/-- C7 as the code has it: the removal handler resolves the caller URN via
the session (401 when invalid), answers 404 — not 403 — when the group is
absent or has no leader, answers 403 when the caller is not the leader, and
deletes a membership row only when the caller is the leader. -/
theorem C7_removal_authorization (sessions : List (String × String))
    (st : DBState) (sid urn group : String) :
    (¬ (sid = "" ∨ group = "" ∨ urn = "") →
      sessions.find? (fun p => p.1 == sid) = none →
      (handleRemoveMemberFromGroup sessions st sid urn group).resp =
        GroupResp.err "Invalid or expired session" 401) ∧
    (∀ p, ¬ (sid = "" ∨ group = "" ∨ urn = "") →
      sessions.find? (fun q => q.1 == sid) = some p →
      getGroupLeader st group = "" →
      (handleRemoveMemberFromGroup sessions st sid urn group).resp =
        GroupResp.err "Group not found or no leader set" 404) ∧
    (∀ p, ¬ (sid = "" ∨ group = "" ∨ urn = "") →
      sessions.find? (fun q => q.1 == sid) = some p →
      getGroupLeader st group ≠ "" → getGroupLeader st group ≠ p.2 →
      (handleRemoveMemberFromGroup sessions st sid urn group).resp =
        GroupResp.err "Admin (group leader) privileges required" 403) ∧
    ((handleRemoveMemberFromGroup sessions st sid urn group).db.group_members
        ≠ st.group_members →
      ∃ p, sessions.find? (fun q => q.1 == sid) = some p ∧
        p.2 = getGroupLeader st group ∧ getGroupLeader st group ≠ "") := by
  refine ⟨?_, ?_, ?_, ?_⟩
  · intro hmiss hfind
    simp [handleRemoveMemberFromGroup, hmiss, requireGroupLeader, hfind]
  · intro p hmiss hfind hlead
    simp [handleRemoveMemberFromGroup, hmiss, requireGroupLeader, hfind,
      hlead]
  · intro p hmiss hfind hlead hlp
    simp [handleRemoveMemberFromGroup, hmiss, requireGroupLeader, hfind,
      hlead, hlp]
  · intro hch
    by_cases hmiss : sid = "" ∨ group = "" ∨ urn = ""
    · simp [handleRemoveMemberFromGroup, hmiss] at hch
    · rcases hfind : sessions.find? (fun q => q.1 == sid) with _ | p
      · simp [handleRemoveMemberFromGroup, hmiss, requireGroupLeader,
          hfind] at hch
      · by_cases hlead : getGroupLeader st group = ""
        · simp [handleRemoveMemberFromGroup, hmiss, requireGroupLeader,
            hfind, hlead] at hch
        · by_cases hlp : getGroupLeader st group = p.2
          · exact ⟨p, hfind, hlp.symm, hlead⟩
          · simp [handleRemoveMemberFromGroup, hmiss, requireGroupLeader,
              hfind, hlead, hlp] at hch

end Transport
